import Mathlib

/-!
Shallow embedding of the state-guard repository (clebert/state-guard).

The repository contains several near-duplicate implementations of the same
snapshot/version/subscription engine:

* createMachine in src/src/create-machine.ts and src/unnamed/part_002, and
  createStateMachine in the second half of src/src/create-store.ts: the
  log-and-continue variants, where a listener error is caught and reported
  to console.error and delivery continues;
* createStore in the first half of src/src/create-store.ts: the zod-backed
  rollback variant, where the first listener error aborts delivery, the
  commit (state, value, version, snapshot) is rolled back and the error is
  rethrown to the action caller.

Modelling conventions:

* A JS string state identifier is a String; action names are String.
* JS values and thrown user errors are modelled as opaque Nat payloads.
* A transformer (createMachine) is List Nat → Except Nat Nat: it either
  returns a value or throws a payload.  A zod schema parse (createStore) is
  Nat → Except Nat Nat.
* The version token minted by Symbol() is modelled as a Nat generation
  counter incremented on every commit (the translation the spec itself
  blesses: a fresh token differs from every previously minted one).
* A snapshot object is identified by the version token it captured: the
  source calls createSnapshot exactly once per minted token, so the token
  determines the snapshot reference.  Its accessors read the live machine
  fields after asserting freshness, so they take the machine as argument.
* Listener functions are identified by Nat ids; an environment
  List (Nat × Behavior) gives the observable behaviour of each id when it
  is invoked: a finite list of effects (throw, subscribe, unsubscribe).
  The listener registry is a JS Set, modelled as a duplicate-free list in
  insertion order; live Set iteration is modelled by a done/todo split:
  the next listener invoked is the head of todo and is moved to done
  before its effects run, additions append to todo when the id is absent
  from done ++ todo, deletions erase from both.
* JS for..of over a Set that keeps growing can diverge, so the notify
  loops take a fuel argument and return none when the fuel runs out;
  a completed cycle is a some result.
-/

/-- The error taxonomy of the engine.  `staleSnapshot` is thrown as
"Stale snapshot." / "Outdated snapshot.", `illegalTransition` as
"Illegal transition." / "Illegal state change.", `unexpectedState` as
"Unexpected state.", `unknownAction` as "Unknown action." (store variants
only).  `typeError` models the JS TypeError raised by calling or indexing
undefined.  `thrown v` models a user error with payload `v` propagated
from a transformer, a schema parse or a listener. -/
inductive Err where
  | staleSnapshot : Err
  | illegalTransition : Err
  | unexpectedState : Err
  | unknownAction : Err
  | typeError : Err
  | thrown (v : Nat) : Err
deriving DecidableEq, Repr

/-- A snapshot object, identified by the version token captured at its
creation (`const version = currentVersion` in createSnapshot). -/
structure Snap where
  version : Nat
deriving DecidableEq, Repr

/-- One observable effect of a listener callback: throw a user error,
subscribe a listener id, or unsubscribe a listener id. -/
inductive LEffect where
  | throwE (e : Nat) : LEffect
  | subscribeL (l : Nat) : LEffect
  | unsubscribeL (l : Nat) : LEffect
deriving DecidableEq, Repr

/-- The behaviour of a listener when invoked: its effects run in order
until the list ends or a `throwE` aborts the callback. -/
abbrev Behavior := List LEffect

/-- The behaviour of listener id `l` in environment `env`; an id not in
the environment is a listener with no observable effects. -/
def behOf (env : List (Nat × Behavior)) (l : Nat) : Behavior :=
  (List.lookup l env).getD []

/-- Run the effects of one listener callback against the live listener
set, split as done (already yielded by the Set iterator) and todo (not
yet yielded).  Returns the new done, the new todo, and the payload of the
error the callback threw, if any.  Set.add appends to todo when the id is
absent from the whole set; Set.delete erases from either part. -/
def runEffects : Behavior → List Nat → List Nat → List Nat × List Nat × Option Nat
  | [], done, todo => (done, todo, none)
  | LEffect.throwE e :: _, done, todo => (done, todo, some e)
  | LEffect.subscribeL x :: rest, done, todo =>
    if x ∈ done ∨ x ∈ todo then runEffects rest done todo
    else runEffects rest done (todo ++ [x])
  | LEffect.unsubscribeL x :: rest, done, todo =>
    runEffects rest (done.erase x) (todo.erase x)

/-- The payload of the first error a behaviour throws, if any. -/
def firstThrow : Behavior → Option Nat
  | [] => none
  | LEffect.throwE e :: _ => some e
  | _ :: rest => firstThrow rest

/-- A behaviour that never mutates the listener registry (it may still
throw).  Such listeners leave the Set untouched during the cycle. -/
def noSetEffects (b : Behavior) : Bool :=
  b.all fun eff =>
    match eff with
    | LEffect.throwE _ => true
    | _ => false

/-- The sequence of errors the log-and-continue notify loop reports to
the error sink (console.error) when it delivers to `L` in order. -/
def sinkOf (env : List (Nat × Behavior)) (L : List Nat) : List Nat :=
  L.filterMap fun l => firstThrow (behOf env l)

/-- The notify loop of createMachine / createStateMachine: iterate the
live listener Set; each thrown listener error is caught and reported to
console.error (accumulated in `sink`) and delivery continues.  `log`
accumulates the invoked listeners in order.  Returns the final listener
list, the invocation log and the sink log; none models a cycle that never
terminates (fuel exhausted). -/
def notifyIterM (env : List (Nat × Behavior)) :
    Nat → List Nat → List Nat → List Nat → List Nat →
    Option (List Nat × List Nat × List Nat)
  | 0, _, _, _, _ => none
  | fuel + 1, done, todo, log, sink =>
    match todo with
    | [] => some (done, log, sink)
    | l :: rest =>
      let r := runEffects (behOf env l) (done ++ [l]) rest
      notifyIterM env fuel r.1 r.2.1 (log ++ [l])
        (sink ++ (match r.2.2 with | none => [] | some e => [e]))

/-- The closure state of one machine-variant action function: the version
token its enclosing createSnapshot captured, and the destination state the
proxy get trap looked up at property-access time
(`transitionsMap[currentState][actionName]`, which is undefined — `none` —
for an action name with no entry). -/
structure ActionClosure where
  version : Nat
  newState? : Option String
deriving DecidableEq, Repr

/-- The machine instance of createMachine (src/src/create-machine.ts):
the closure variables transformerMap, transitionsMap, currentState,
currentValue, currentVersion, currentSnapshot, listeners and notifying. -/
structure MachineM where
  transformerMap : List (String × (List Nat → Except Nat Nat))
  transitionsMap : List (String × List (String × String))
  currentState : String
  currentValue : Nat
  currentVersion : Nat
  currentSnapshot : Snap
  listeners : List Nat
  notifying : Bool

/-- createMachine: initial state and value, version 0, the initial
snapshot bound to version 0, no listeners, not notifying. -/
def createMachineM (initialState : String) (initialValue : Nat)
    (transformerMap : List (String × (List Nat → Except Nat Nat)))
    (transitionsMap : List (String × List (String × String))) : MachineM :=
  { transformerMap := transformerMap
    transitionsMap := transitionsMap
    currentState := initialState
    currentValue := initialValue
    currentVersion := 0
    currentSnapshot := ⟨0⟩
    listeners := []
    notifying := false }

/-- The snapshot `state` accessor: assertVersion, then return the live
currentState. -/
def Snap.stateOf (s : Snap) (m : MachineM) : Except Err String :=
  if s.version = m.currentVersion then Except.ok m.currentState
  else Except.error Err.staleSnapshot

/-- The snapshot `value` accessor: assertVersion, then return the live
currentValue. -/
def Snap.valueOf (s : Snap) (m : MachineM) : Except Err Nat :=
  if s.version = m.currentVersion then Except.ok m.currentValue
  else Except.error Err.staleSnapshot

/-- The snapshot `actions` accessor: assertVersion, then return the
dispatch proxy (opaque, so modelled as Unit). -/
def Snap.actionsOf (s : Snap) (m : MachineM) : Except Err Unit :=
  if s.version = m.currentVersion then Except.ok ()
  else Except.error Err.staleSnapshot

/-- The proxy get trap of the machine-variant dispatch surface:
assertVersion, then look up `transitionsMap[currentState][actionName]`
with no unknown-action check, and return the action closure.  Reading a
property of undefined (currentState missing from transitionsMap) is a JS
TypeError. -/
def Snap.actionGet (s : Snap) (m : MachineM) (actionName : String) :
    Except Err ActionClosure :=
  if s.version = m.currentVersion then
    match List.lookup m.currentState m.transitionsMap with
    | none => Except.error Err.typeError
    | some transitions => Except.ok ⟨s.version, List.lookup actionName transitions⟩
  else Except.error Err.staleSnapshot

/-- Invoking a machine-variant action closure.  In source order: reject if
notifying; assertVersion; compute the new value with the destination
transformer (`transformerMap[newState]!(...args)` — a TypeError when the
destination is undefined or has no transformer); commit state, value, a
fresh version and a fresh snapshot; notify; return the new snapshot.
The result carries the machine after the call, the listener invocation
log, the sink log, and the returned snapshot or thrown error; none means
the notification cycle never terminated. -/
def invokeActionM (env : List (Nat × Behavior)) (fuel : Nat)
    (c : ActionClosure) (m : MachineM) (args : List Nat) :
    Option (MachineM × List Nat × List Nat × Except Err Snap) :=
  if m.notifying then some (m, [], [], Except.error Err.illegalTransition)
  else if c.version = m.currentVersion then
    match c.newState? with
    | none => some (m, [], [], Except.error Err.typeError)
    | some newState =>
      match List.lookup newState m.transformerMap with
      | none => some (m, [], [], Except.error Err.typeError)
      | some transformer =>
        match transformer args with
        | Except.error e => some (m, [], [], Except.error (Err.thrown e))
        | Except.ok newValue =>
          match notifyIterM env fuel [] m.listeners [] [] with
          | none => none
          | some (ls, log, sink) =>
            some ({ m with
                      currentState := newState
                      currentValue := newValue
                      currentVersion := m.currentVersion + 1
                      currentSnapshot := ⟨m.currentVersion + 1⟩
                      listeners := ls
                      notifying := false },
                  log, sink, Except.ok ⟨m.currentVersion + 1⟩)
  else some (m, [], [], Except.error Err.staleSnapshot)

/-- machine.get(expectedState?): the current snapshot when the argument is
absent or equals the live state, undefined otherwise; never throws. -/
def MachineM.get (m : MachineM) (expectedState : Option String) : Option Snap :=
  match expectedState with
  | none => some m.currentSnapshot
  | some e => if e = m.currentState then some m.currentSnapshot else none

/-- machine.assert(expectedState): the current snapshot when the argument
equals the live state, otherwise an UnexpectedState error. -/
def MachineM.assert (m : MachineM) (expectedState : String) : Except Err Snap :=
  if expectedState = m.currentState then Except.ok m.currentSnapshot
  else Except.error Err.unexpectedState

/-- machine.subscribe: Set.add — append the listener when it is not
already registered, otherwise leave the Set unchanged.  There is no
notifying guard on this path. -/
def subscribeM (m : MachineM) (l : Nat) : MachineM :=
  { m with listeners := if l ∈ m.listeners then m.listeners else m.listeners ++ [l] }

/-- The unsubscribe function returned by subscribe: Set.delete.  There is
no notifying guard on this path either. -/
def unsubscribeM (m : MachineM) (l : Nat) : MachineM :=
  { m with listeners := m.listeners.erase l }

/-- All three snapshot accessors and every action-name access on `s` fail
with StaleSnapshot on machine `m`. -/
def Snap.isStaleOn (s : Snap) (m : MachineM) : Prop :=
  s.stateOf m = Except.error Err.staleSnapshot ∧
  s.valueOf m = Except.error Err.staleSnapshot ∧
  s.actionsOf m = Except.error Err.staleSnapshot ∧
  ∀ actionName, s.actionGet m actionName = Except.error Err.staleSnapshot

/-- All three snapshot accessors succeed on machine `m`, returning the
live state and value. -/
def Snap.isFreshOn (s : Snap) (m : MachineM) : Prop :=
  s.stateOf m = Except.ok m.currentState ∧
  s.valueOf m = Except.ok m.currentValue ∧
  s.actionsOf m = Except.ok ()

/-- The notify loop of createStore (rollback variant): iterate the live
listener Set inside try/finally; the first listener error aborts delivery
and propagates.  Returns the final listener list (`done ++ todo` frozen at
the abort point), the invocation log and the propagated error, if any;
none models a cycle that never terminates. -/
def notifyIterS (env : List (Nat × Behavior)) :
    Nat → List Nat → List Nat → List Nat →
    Option (List Nat × List Nat × Option Nat)
  | 0, _, _, _ => none
  | fuel + 1, done, todo, log =>
    match todo with
    | [] => some (done, log, none)
    | l :: rest =>
      let r := runEffects (behOf env l) (done ++ [l]) rest
      match r.2.2 with
      | some e => some (r.1 ++ r.2.1, log ++ [l], some e)
      | none => notifyIterS env fuel r.1 r.2.1 (log ++ [l])

/-- The closure state of one store-variant action function: the captured
version token and the destination state.  Unlike the machine variant the
closure is only created after the unknown-action check, so the destination
is always a known string. -/
structure SActionClosure where
  version : Nat
  newState : String
deriving DecidableEq, Repr

/-- The store instance of createStore (src/src/create-store.ts): the
closure variables valueSchemaMap, transitionsMap, actualState,
actualValue, actualVersion, actualSnapshot, listeners and notifying. -/
structure StoreM where
  valueSchemaMap : List (String × (Nat → Except Nat Nat))
  transitionsMap : List (String × List (String × String))
  actualState : String
  actualValue : Nat
  actualVersion : Nat
  actualSnapshot : Snap
  listeners : List Nat
  notifying : Bool

/-- createStore: parse the initial value with the initial-state schema
(construction fails when the schema map has no entry — a JS TypeError —
or when the parse rejects), then build the store at version 0. -/
def createStoreM (initialState : String) (initialValue : Nat)
    (valueSchemaMap : List (String × (Nat → Except Nat Nat)))
    (transitionsMap : List (String × List (String × String))) : Except Err StoreM :=
  match List.lookup initialState valueSchemaMap with
  | none => Except.error Err.typeError
  | some schema =>
    match schema initialValue with
    | Except.error e => Except.error (Err.thrown e)
    | Except.ok v =>
      Except.ok
        { valueSchemaMap := valueSchemaMap
          transitionsMap := transitionsMap
          actualState := initialState
          actualValue := v
          actualVersion := 0
          actualSnapshot := ⟨0⟩
          listeners := []
          notifying := false }

/-- The store snapshot `state` accessor. -/
def Snap.stateOfS (s : Snap) (st : StoreM) : Except Err String :=
  if s.version = st.actualVersion then Except.ok st.actualState
  else Except.error Err.staleSnapshot

/-- The store snapshot `value` accessor. -/
def Snap.valueOfS (s : Snap) (st : StoreM) : Except Err Nat :=
  if s.version = st.actualVersion then Except.ok st.actualValue
  else Except.error Err.staleSnapshot

/-- The store snapshot `actions` accessor. -/
def Snap.actionsOfS (s : Snap) (st : StoreM) : Except Err Unit :=
  if s.version = st.actualVersion then Except.ok ()
  else Except.error Err.staleSnapshot

/-- The proxy get trap of the store-variant dispatch surface:
assertVersion, look up `transitionsMap[actualState][actionName]` (a JS
TypeError when actualState itself is missing), and throw UnknownAction
when the looked-up destination is undefined; otherwise return the action
closure.  A non-string property key also yields UnknownAction in the
source; string keys cover that branch shape. -/
def Snap.actionGetS (s : Snap) (st : StoreM) (actionName : String) :
    Except Err SActionClosure :=
  if s.version = st.actualVersion then
    match List.lookup st.actualState st.transitionsMap with
    | none => Except.error Err.typeError
    | some transitions =>
      match List.lookup actionName transitions with
      | none => Except.error Err.unknownAction
      | some newState => Except.ok ⟨s.version, newState⟩
  else Except.error Err.staleSnapshot

/-- Invoking a store-variant action closure.  In source order: reject if
notifying; assertVersion; save previousState/Value/Version/Snapshot;
assign actualState := newState, then parse the new value with the
destination schema (so a parse failure leaves actualState mutated — the
source assigns before parsing); mint a fresh version and snapshot; run
notify, and on a listener error restore the four saved fields (the
listener Set keeps any mutation made during the aborted delivery) and
rethrow; otherwise return the new snapshot. -/
def invokeActionS (env : List (Nat × Behavior)) (fuel : Nat)
    (c : SActionClosure) (st : StoreM) (newValue : Nat) :
    Option (StoreM × List Nat × Except Err Snap) :=
  if st.notifying then some (st, [], Except.error Err.illegalTransition)
  else if c.version = st.actualVersion then
    let previousState := st.actualState
    let previousValue := st.actualValue
    let previousVersion := st.actualVersion
    let previousSnapshot := st.actualSnapshot
    match List.lookup c.newState st.valueSchemaMap with
    | none => some ({ st with actualState := c.newState }, [], Except.error Err.typeError)
    | some schema =>
      match schema newValue with
      | Except.error e =>
        some ({ st with actualState := c.newState }, [], Except.error (Err.thrown e))
      | Except.ok v =>
        let st1 : StoreM :=
          { st with
              actualState := c.newState
              actualValue := v
              actualVersion := st.actualVersion + 1
              actualSnapshot := ⟨st.actualVersion + 1⟩ }
        match notifyIterS env fuel [] st1.listeners [] with
        | none => none
        | some (ls, log, some e) =>
          some ({ st1 with
                    actualState := previousState
                    actualValue := previousValue
                    actualVersion := previousVersion
                    actualSnapshot := previousSnapshot
                    listeners := ls },
                log, Except.error (Err.thrown e))
        | some (ls, log, none) =>
          some ({ st1 with listeners := ls }, log, Except.ok ⟨st.actualVersion + 1⟩)
  else some (st, [], Except.error Err.staleSnapshot)

/-- store.get(expectedState?): same shape as the machine variant. -/
def StoreM.get (st : StoreM) (expectedState : Option String) : Option Snap :=
  match expectedState with
  | none => some st.actualSnapshot
  | some e => if e = st.actualState then some st.actualSnapshot else none

/-- store.subscribe: Set.add, no notifying guard. -/
def subscribeS (st : StoreM) (l : Nat) : StoreM :=
  { st with listeners := if l ∈ st.listeners then st.listeners else st.listeners ++ [l] }

/-- The store snapshot accessors all fail with StaleSnapshot on `st`. -/
def Snap.isStaleOnS (s : Snap) (st : StoreM) : Prop :=
  s.stateOfS st = Except.error Err.staleSnapshot ∧
  s.valueOfS st = Except.error Err.staleSnapshot ∧
  s.actionsOfS st = Except.error Err.staleSnapshot ∧
  ∀ actionName, s.actionGetS st actionName = Except.error Err.staleSnapshot

/-- The store snapshot accessors all succeed on `st`. -/
def Snap.isFreshOnS (s : Snap) (st : StoreM) : Prop :=
  s.stateOfS st = Except.ok st.actualState ∧
  s.valueOfS st = Except.ok st.actualValue ∧
  s.actionsOfS st = Except.ok ()

/-- The reverse-edge index built once by the part_002 createMachine: for
each state (iterating the transformer-map keys) collect, in
transition-table iteration order, every source state one of whose actions
has this state as destination; `includes` records each source once per
(source, destination) pair. -/
def prevStatesMap (stateKeys : List String)
    (transitionsMap : List (String × List (String × String))) :
    List (String × List String) :=
  stateKeys.map fun state =>
    (state,
      (transitionsMap.filter fun entry =>
        (entry.2.map Prod.snd).contains state).map Prod.fst)

/-- machine.getPrevStates(state): index into the precomputed map
(undefined — none — for a state that is not a transformer-map key). -/
def getPrevStates (stateKeys : List String)
    (transitionsMap : List (String × List (String × String)))
    (state : String) : Option (List String) :=
  List.lookup state (prevStatesMap stateKeys transitionsMap)

/-! ## Concrete instances (used to witness the theorems below) -/

/-- The traffic-light transformer map of the repository tests. -/
def trafficTransformerMap : List (String × (List Nat → Except Nat Nat)) :=
  [("red", fun _ => Except.ok 0),
   ("turningGreen", fun args => Except.ok (args.headD 0)),
   ("green", fun _ => Except.ok 2),
   ("turningRed", fun _ => Except.ok 3)]

/-- The traffic-light transition table of the repository tests. -/
def trafficTransitionsMap : List (String × List (String × String)) :=
  [("red", [("turnGreen", "turningGreen")]),
   ("turningGreen", [("setGreen", "green")]),
   ("green", [("turnRed", "turningRed")]),
   ("turningRed", [("setRed", "red")])]

/-- The traffic-light machine, freshly constructed in state red. -/
def trafficM : MachineM :=
  createMachineM "red" 0 trafficTransformerMap trafficTransitionsMap

/-- The traffic-light machine after the turnGreen action with argument 5. -/
def trafficAfter : MachineM :=
  { trafficM with
      currentState := "turningGreen"
      currentValue := 5
      currentVersion := 1
      currentSnapshot := ⟨1⟩ }

/-- A machine whose single action leads to a state whose transformer
always throws payload 9. -/
def failM : MachineM :=
  createMachineM "red" 0
    [("red", fun _ => Except.ok 0), ("boom", fun _ => Except.error 9)]
    [("red", [("explode", "boom")])]

/-- The falsy-state machine of the spec scenario: initial state full, a
transition into the empty-string state and back. -/
def emptyFullM : MachineM :=
  createMachineM "full" 1
    [("full", fun _ => Except.ok 1), ("", fun _ => Except.ok 0)]
    [("full", [("empty", "")]), ("", [("fill", "full")])]

/-- The falsy-state machine after the empty action. -/
def emptyFullAfter : MachineM :=
  { emptyFullM with
      currentState := ""
      currentValue := 0
      currentVersion := 1
      currentSnapshot := ⟨1⟩ }

/-- A small store in state red with a two-state schema map. -/
def demoStore : StoreM :=
  { valueSchemaMap :=
      [("red", fun v => Except.ok v), ("soonGreen", fun v => Except.ok (v + 1))]
    transitionsMap :=
      [("red", [("requestGreen", "soonGreen")]), ("soonGreen", [("setGreen", "red")])]
    actualState := "red"
    actualValue := 0
    actualVersion := 0
    actualSnapshot := ⟨0⟩
    listeners := []
    notifying := false }

/-! ## Helper lemmas about the notification loops -/

/-- A callback with no registry effects leaves the listener Set untouched
and throws exactly its first throw effect. -/
theorem runEffects_pure (b : Behavior) (done todo : List Nat)
    (h : noSetEffects b = true) :
    runEffects b done todo = (done, todo, firstThrow b) := by
  induction b generalizing done todo with
  | nil => rfl
  | cons eff rest ih =>
    cases eff with
    | throwE e => rfl
    | subscribeL x => simp [noSetEffects] at h
    | unsubscribeL x => simp [noSetEffects] at h

/-- A callback never adds new elements to the done (already visited) part
of the listener Set. -/
theorem runEffects_done_sub (b : Behavior) (done todo : List Nat) (x : Nat)
    (hx : x ∈ (runEffects b done todo).1) : x ∈ done := by
  induction b generalizing done todo with
  | nil => exact hx
  | cons eff rest ih =>
    cases eff with
    | throwE e => exact hx
    | subscribeL y =>
      simp only [runEffects] at hx
      split at hx
      · exact ih _ _ hx
      · exact ih _ _ hx
    | unsubscribeL y =>
      simp only [runEffects] at hx
      exact List.mem_of_mem_erase (ih _ _ hx)

/-- When no listener mutates the registry, the log-and-continue notify
loop visits exactly the pending listeners, in order, and reports their
thrown errors to the sink, regardless of which listeners throw. -/
theorem notifyIterM_pure (env : List (Nat × Behavior)) (L : List Nat) :
    ∀ (fuel : Nat) (done log sink : List Nat),
      (∀ l ∈ L, noSetEffects (behOf env l) = true) →
      L.length + 1 ≤ fuel →
      notifyIterM env fuel done L log sink =
        some (done ++ L, log ++ L, sink ++ sinkOf env L) := by
  induction L with
  | nil =>
    intro fuel done log sink _ hfuel
    cases fuel with
    | zero => omega
    | succ f => simp [notifyIterM, sinkOf]
  | cons l rest ih =>
    intro fuel done log sink hpure hfuel
    cases fuel with
    | zero => simp [List.length_cons] at hfuel
    | succ f =>
      have hl : noSetEffects (behOf env l) = true := hpure l (by simp)
      simp only [notifyIterM, runEffects_pure _ _ _ hl]
      rw [ih f (done ++ [l]) (log ++ [l]) _
        (fun x hx => hpure x (List.mem_cons_of_mem l hx))
        (by simp only [List.length_cons] at hfuel; omega)]
      cases hft : firstThrow (behOf env l) <;>
        simp [sinkOf, hft, List.append_assoc]

/-- The invocation log of the log-and-continue notify loop only grows. -/
theorem notifyIterM_log_mono (env : List (Nat × Behavior)) :
    ∀ (fuel : Nat) (done todo log sink final flog fsink : List Nat),
      notifyIterM env fuel done todo log sink = some (final, flog, fsink) →
      ∀ y ∈ log, y ∈ flog := by
  intro fuel
  induction fuel with
  | zero => intro done todo log sink final flog fsink h; simp [notifyIterM] at h
  | succ f ih =>
    intro done todo log sink final flog fsink h y hy
    cases todo with
    | nil =>
      simp only [notifyIterM, Option.some.injEq, Prod.mk.injEq] at h
      obtain ⟨-, h2, -⟩ := h
      exact h2 ▸ hy
    | cons l rest =>
      simp only [notifyIterM] at h
      exact ih _ _ _ _ _ _ _ h y (List.mem_append_left _ hy)

/-- Live Set iteration: when a log-and-continue notification cycle
completes, every listener still registered at the end of the cycle was
either already visited before the cycle resumed (`done`) or was invoked
during it — in particular, a listener subscribed during the cycle and not
removed again is invoked before the cycle completes. -/
theorem notifyIterM_final_visited (env : List (Nat × Behavior)) :
    ∀ (fuel : Nat) (done todo log sink final flog fsink : List Nat),
      notifyIterM env fuel done todo log sink = some (final, flog, fsink) →
      ∀ x ∈ final, x ∈ done ∨ x ∈ flog := by
  intro fuel
  induction fuel with
  | zero => intro done todo log sink final flog fsink h; simp [notifyIterM] at h
  | succ f ih =>
    intro done todo log sink final flog fsink h x hx
    cases todo with
    | nil =>
      simp only [notifyIterM, Option.some.injEq, Prod.mk.injEq] at h
      obtain ⟨h1, -, -⟩ := h
      exact Or.inl (h1 ▸ hx)
    | cons l rest =>
      simp only [notifyIterM] at h
      rcases ih _ _ _ _ _ _ _ h x hx with hd | hl
      · rcases List.mem_append.mp (runEffects_done_sub _ _ _ _ hd) with h1 | h2
        · exact Or.inl h1
        · refine Or.inr (notifyIterM_log_mono env f _ _ _ _ _ _ _ h x ?_)
          exact List.mem_append_right _ h2
      · exact Or.inr hl

/-- When no listener mutates the registry, the rollback notify loop
delivers to the throw-free prefix and to the first throwing listener,
aborts there, leaves the Set unchanged and reports that error. -/
theorem notifyIterS_pure_abort (env : List (Nat × Behavior)) (pre : List Nat) :
    ∀ (fuel : Nat) (done log : List Nat) (bad : Nat) (post : List Nat) (e : Nat),
      (∀ l ∈ pre, noSetEffects (behOf env l) = true ∧
        firstThrow (behOf env l) = none) →
      noSetEffects (behOf env bad) = true →
      firstThrow (behOf env bad) = some e →
      pre.length + 1 ≤ fuel →
      notifyIterS env fuel done (pre ++ bad :: post) log =
        some (done ++ pre ++ [bad] ++ post, log ++ pre ++ [bad], some e) := by
  induction pre with
  | nil =>
    intro fuel done log bad post e _ hbp hbt hfuel
    cases fuel with
    | zero => omega
    | succ f =>
      simp only [List.nil_append, notifyIterM, notifyIterS,
        runEffects_pure _ _ _ hbp, hbt]
      simp [List.append_assoc]
  | cons p rest ih =>
    intro fuel done log bad post e hpre hbp hbt hfuel
    cases fuel with
    | zero => simp [List.length_cons] at hfuel
    | succ f =>
      obtain ⟨hp1, hp2⟩ := hpre p (by simp)
      simp only [List.cons_append, notifyIterS, runEffects_pure _ _ _ hp1, hp2]
      rw [ih f (done ++ [p]) (log ++ [p]) bad post e
        (fun x hx => hpre x (List.mem_cons_of_mem p hx)) hbp hbt
        (by simp only [List.length_cons] at hfuel; omega)]
      simp [List.append_assoc]

/-- Inversion of a successful machine-variant action call: the version was
bumped by one, the machine is not notifying afterwards, and the current
snapshot and the returned snapshot are both bound to the new version. -/
theorem invokeActionM_ok_inv (env : List (Nat × Behavior)) (fuel : Nat)
    (c : ActionClosure) (m : MachineM) (args : List Nat)
    (m2 : MachineM) (log sink : List Nat) (snap : Snap)
    (h : invokeActionM env fuel c m args = some (m2, log, sink, Except.ok snap)) :
    m2.currentVersion = m.currentVersion + 1 ∧ m2.notifying = false ∧
    m2.currentSnapshot = ⟨m.currentVersion + 1⟩ ∧ snap = ⟨m.currentVersion + 1⟩ := by
  unfold invokeActionM at h
  split at h
  · simp at h
  · split at h
    · split at h
      · simp at h
      · split at h
        · simp at h
        · split at h
          · simp at h
          · split at h
            · simp at h
            · simp only [Option.some.injEq, Prod.mk.injEq, Except.ok.injEq] at h
              obtain ⟨hm, -, -, hs⟩ := h
              subst hm
              subst hs
              exact ⟨rfl, rfl, rfl, rfl⟩
    · simp at h

/-! ## Claim theorems -/

/-- C3: an action invoked while the machine is inside a notification cycle
(the notifying flag is set) fails with the IllegalTransition (machine
variants) / IllegalStateChange (store variant) error, before any
transformer or schema runs — the outcome is the same for every
transformer/schema map, closure and argument — and the machine and store
are left exactly unchanged, with no listener invoked: the attempt is
rejected, never queued. -/
theorem c3_reentrant_transition_rejected
    (env : List (Nat × Behavior)) (fuel : Nat) (c : ActionClosure)
    (m : MachineM) (args : List Nat)
    (envS : List (Nat × Behavior)) (fuelS : Nat) (cS : SActionClosure)
    (st : StoreM) (newValue : Nat)
    (hm : m.notifying = true) (hst : st.notifying = true) :
    invokeActionM env fuel c m args =
      some (m, [], [], Except.error Err.illegalTransition) ∧
    invokeActionS envS fuelS cS st newValue =
      some (st, [], Except.error Err.illegalTransition) := by
  constructor
  · simp [invokeActionM, hm]
  · simp [invokeActionS, hst]

/-- Witness for C3 at a notifying traffic-light machine and a notifying
demo store. -/
theorem c3_witness :
    invokeActionM [] 1 ⟨0, some "turningGreen"⟩
        { trafficM with notifying := true } [5] =
      some ({ trafficM with notifying := true }, [], [],
        Except.error Err.illegalTransition) ∧
    invokeActionS [] 1 ⟨0, "soonGreen"⟩ { demoStore with notifying := true } 4 =
      some ({ demoStore with notifying := true }, [],
        Except.error Err.illegalTransition) :=
  c3_reentrant_transition_rejected [] 1 ⟨0, some "turningGreen"⟩
    { trafficM with notifying := true } [5] [] 1 ⟨0, "soonGreen"⟩
    { demoStore with notifying := true } 4 rfl rfl

/-- C2: when the destination-state transformer throws, the machine is left
exactly as before the call — the result machine is `m` itself, so state,
value, version, listeners and the current snapshot are all unchanged and
machine.get() still returns the same, still-fresh snapshot — no listener
is notified (empty invocation log and sink), and the transformer error
propagates synchronously to the caller. -/
theorem c2_transformer_failure_nonmutation
    (env : List (Nat × Behavior)) (fuel : Nat) (c : ActionClosure) (m : MachineM)
    (args : List Nat) (ns : String) (f : List Nat → Except Nat Nat) (e : Nat)
    (hn : m.notifying = false) (hv : c.version = m.currentVersion)
    (hns : c.newState? = some ns)
    (hf : List.lookup ns m.transformerMap = some f)
    (he : f args = Except.error e)
    (hsnap : m.currentSnapshot = ⟨m.currentVersion⟩) :
    invokeActionM env fuel c m args = some (m, [], [], Except.error (Err.thrown e)) ∧
    MachineM.get m none = some m.currentSnapshot ∧
    m.currentSnapshot.isFreshOn m := by
  refine ⟨?_, rfl, ?_⟩
  · simp [invokeActionM, hn, hv, hns, hf, he]
  · simp [Snap.isFreshOn, Snap.stateOf, Snap.valueOf, Snap.actionsOf, hsnap]

/-- Witness for C2 at the machine whose explode action leads to a state
whose transformer throws payload 9. -/
theorem c2_witness :
    invokeActionM [] 1 ⟨0, some "boom"⟩ failM [] =
      some (failM, [], [], Except.error (Err.thrown 9)) ∧
    MachineM.get failM none = some failM.currentSnapshot ∧
    failM.currentSnapshot.isFreshOn failM :=
  c2_transformer_failure_nonmutation [] 1 ⟨0, some "boom"⟩ failM []
    "boom" (fun _ => Except.error 9) 9 rfl rfl rfl rfl rfl rfl

/-- C8: machine.get(e) returns the current snapshot exactly when the live
state equals e and undefined (none) otherwise, never throwing (it is a
total function); the comparison is exact identifier equality, so for the
falsy-state machine (initial state full, transitions full --empty--> ""
and "" --fill--> full) get("") is undefined while the machine is in state
full and returns the current snapshot after the machine transitions into
state "". -/
theorem c8_get_expected_state :
    (∀ m : MachineM, MachineM.get m none = some m.currentSnapshot) ∧
    (∀ m : MachineM, MachineM.get m (some m.currentState) = some m.currentSnapshot) ∧
    (∀ (m : MachineM) (e : String), e ≠ m.currentState →
      MachineM.get m (some e) = none) ∧
    MachineM.get emptyFullM (some "") = none ∧
    MachineM.get emptyFullM (some "full") = some emptyFullM.currentSnapshot ∧
    (∀ (m1 : MachineM) (log sink : List Nat) (s : Snap),
      invokeActionM [] 1 ⟨0, some ""⟩ emptyFullM [] =
        some (m1, log, sink, Except.ok s) →
      m1.currentState = "" ∧
      MachineM.get m1 (some "") = some m1.currentSnapshot ∧
      MachineM.get m1 (some "full") = none) := by
  refine ⟨fun m => rfl, fun m => by simp [MachineM.get],
    fun m e he => by simp [MachineM.get, he], rfl, rfl, ?_⟩
  intro m1 log sink s h
  rw [show invokeActionM [] 1 ⟨0, some ""⟩ emptyFullM [] =
      some (emptyFullAfter, [], [], Except.ok ⟨1⟩) from rfl] at h
  simp only [Option.some.injEq, Prod.mk.injEq, Except.ok.injEq] at h
  obtain ⟨hm, -, -, -⟩ := h
  subst hm
  exact ⟨rfl, rfl, rfl⟩

/-- Witness for C8: a state not equal to the live one yields none, and the
concrete transition into the empty-string state makes get("") succeed. -/
theorem c8_witness :
    MachineM.get trafficM (some "green") = none ∧
    (emptyFullAfter.currentState = "" ∧
      MachineM.get emptyFullAfter (some "") = some emptyFullAfter.currentSnapshot ∧
      MachineM.get emptyFullAfter (some "full") = none) :=
  ⟨c8_get_expected_state.2.2.1 trafficM "green" (by decide),
   c8_get_expected_state.2.2.2.2.2 emptyFullAfter [] [] ⟨1⟩ rfl⟩

/-- C1: freshness invariant.  Every snapshot `s` already handed out by the
machine carries a version no greater than the live version (versions only
grow), so take any such `s`; after any subsequent successful transition,
every access to s.state, s.value and s.actions and every action-name
access on s fails with StaleSnapshot, invoking an action function that was
obtained from s fails with StaleSnapshot and leaves the machine unchanged,
while the same accesses on the new current snapshot (which is also the
snapshot the transition returned) succeed. -/
theorem c1_freshness_invariant
    (env : List (Nat × Behavior)) (fuel : Nat) (c : ActionClosure) (m : MachineM)
    (args : List Nat) (m2 : MachineM) (log sink : List Nat) (snap : Snap)
    (s : Snap) (hs : s.version ≤ m.currentVersion)
    (h : invokeActionM env fuel c m args = some (m2, log, sink, Except.ok snap)) :
    s.isStaleOn m2 ∧
    (∀ (c2 : ActionClosure) (env2 : List (Nat × Behavior)) (fuel2 : Nat)
        (args2 : List Nat),
      c2.version = s.version →
      invokeActionM env2 fuel2 c2 m2 args2 =
        some (m2, [], [], Except.error Err.staleSnapshot)) ∧
    m2.currentSnapshot.isFreshOn m2 ∧
    snap = m2.currentSnapshot := by
  obtain ⟨hv, hn, hcs, hsnap⟩ := invokeActionM_ok_inv env fuel c m args m2 log sink snap h
  have hne : s.version ≠ m2.currentVersion := by omega
  refine ⟨⟨?_, ?_, ?_, ?_⟩, ?_, ?_, ?_⟩
  · simp [Snap.stateOf, hne]
  · simp [Snap.valueOf, hne]
  · simp [Snap.actionsOf, hne]
  · intro a; simp [Snap.actionGet, hne]
  · intro c2 env2 fuel2 args2 hc2
    simp [invokeActionM, hn, hc2, hne]
  · simp [Snap.isFreshOn, Snap.stateOf, Snap.valueOf, Snap.actionsOf, hcs, hv]
  · rw [hsnap, hcs]

/-- Witness for C1: after turnGreen on the fresh traffic-light machine,
the initial snapshot (version 0) is stale in every way and the new current
snapshot is fresh. -/
theorem c1_witness :
    Snap.isStaleOn ⟨0⟩ trafficAfter ∧
    (∀ (c2 : ActionClosure) (env2 : List (Nat × Behavior)) (fuel2 : Nat)
        (args2 : List Nat),
      c2.version = Snap.version ⟨0⟩ →
      invokeActionM env2 fuel2 c2 trafficAfter args2 =
        some (trafficAfter, [], [], Except.error Err.staleSnapshot)) ∧
    trafficAfter.currentSnapshot.isFreshOn trafficAfter ∧
    (⟨1⟩ : Snap) = trafficAfter.currentSnapshot :=
  c1_freshness_invariant [] 1 ⟨0, some "turningGreen"⟩ trafficM [5]
    trafficAfter [] [] ⟨1⟩ ⟨0⟩ (by decide) rfl

/-- C5: log-and-continue listener isolation (createMachine and the
identical createStateMachine).  For a committed transition whose
registered listeners do not mutate the registry, the notification cycle
invokes every registered listener exactly once, in registration order
(the invocation log is exactly the listener list, even when earlier
listeners throw), the thrown errors are reported to the console.error
sink in order, no listener error propagates to the action caller (the
call still returns ok with the new snapshot), and the committed state,
value and version remain at their post-transition values. -/
theorem c5_listener_isolation
    (env : List (Nat × Behavior)) (fuel : Nat) (c : ActionClosure) (m : MachineM)
    (args : List Nat) (ns : String) (f : List Nat → Except Nat Nat) (v : Nat)
    (hn : m.notifying = false) (hv : c.version = m.currentVersion)
    (hns : c.newState? = some ns)
    (hf : List.lookup ns m.transformerMap = some f)
    (hok : f args = Except.ok v)
    (hpure : ∀ l ∈ m.listeners, noSetEffects (behOf env l) = true)
    (hfuel : m.listeners.length + 1 ≤ fuel) :
    invokeActionM env fuel c m args =
      some ({ m with
                currentState := ns
                currentValue := v
                currentVersion := m.currentVersion + 1
                currentSnapshot := ⟨m.currentVersion + 1⟩
                notifying := false },
            m.listeners, sinkOf env m.listeners,
            Except.ok ⟨m.currentVersion + 1⟩) := by
  have hnot := notifyIterM_pure env m.listeners fuel [] [] [] hpure hfuel
  simp only [List.nil_append] at hnot
  simp [invokeActionM, hn, hv, hns, hf, hok, hnot]

/-- Witness for C5: three listeners, the first and third throw; all three
are invoked in order, both errors reach the sink, and the commit stands. -/
theorem c5_witness :
    invokeActionM [(1, [LEffect.throwE 4]), (2, []), (3, [LEffect.throwE 6])] 4
        ⟨0, some "turningGreen"⟩ { trafficM with listeners := [1, 2, 3] } [5] =
      some ({ { trafficM with listeners := [1, 2, 3] } with
                currentState := "turningGreen"
                currentValue := 5
                currentVersion := 1
                currentSnapshot := ⟨1⟩
                notifying := false },
            [1, 2, 3],
            sinkOf [(1, [LEffect.throwE 4]), (2, []), (3, [LEffect.throwE 6])] [1, 2, 3],
            Except.ok ⟨1⟩) :=
  c5_listener_isolation [(1, [LEffect.throwE 4]), (2, []), (3, [LEffect.throwE 6])] 4
    ⟨0, some "turningGreen"⟩ { trafficM with listeners := [1, 2, 3] } [5]
    "turningGreen" (fun args => Except.ok (args.headD 0)) 5
    rfl rfl rfl rfl rfl (by decide) (by decide)

/-- Counterexample to C6 as stated: the listener registry is a JS Set, so
registering the same listener function (id 7) via two separate subscribe
calls leaves a single registration, and one committed transition invokes
it once — the invocation log is [7], with count 1, not 2. -/
theorem c6_counterexample :
    (subscribeM (subscribeM trafficM 7) 7).listeners = [7] ∧
    (invokeActionM [(7, [])] 2 ⟨0, some "turningGreen"⟩
        (subscribeM (subscribeM trafficM 7) 7) [5]).map (fun r => r.2.1) =
      some [7] ∧
    ([7] : List Nat).count 7 = 1 ∧ ([7] : List Nat).count 7 ≠ 2 :=
  ⟨rfl, rfl, by decide, by decide⟩

/-- C6 amended: repeated subscribe calls with the same listener function
are NOT independent registrations — the registry is a Set, so the second
subscribe call is a no-op; after two subscribe calls the listener is
registered once, and one committed transition's notification cycle
invokes it exactly once (the invocation log is the listener list, in
which the listener occurs once). -/
theorem c6_amended
    (m : MachineM) (l : Nat) (hl : l ∉ m.listeners)
    (env : List (Nat × Behavior)) (fuel : Nat) (c : ActionClosure)
    (args : List Nat) (ns : String) (f : List Nat → Except Nat Nat) (v : Nat)
    (hn : m.notifying = false) (hv : c.version = m.currentVersion)
    (hns : c.newState? = some ns)
    (hf : List.lookup ns m.transformerMap = some f)
    (hok : f args = Except.ok v)
    (hpure : ∀ x ∈ m.listeners ++ [l], noSetEffects (behOf env x) = true)
    (hfuel : (m.listeners ++ [l]).length + 1 ≤ fuel) :
    subscribeM (subscribeM m l) l = subscribeM m l ∧
    (subscribeM (subscribeM m l) l).listeners = m.listeners ++ [l] ∧
    (m.listeners ++ [l]).count l = 1 ∧
    invokeActionM env fuel c (subscribeM (subscribeM m l) l) args =
      some ({ m with
                currentState := ns
                currentValue := v
                currentVersion := m.currentVersion + 1
                currentSnapshot := ⟨m.currentVersion + 1⟩
                listeners := m.listeners ++ [l]
                notifying := false },
            m.listeners ++ [l], sinkOf env (m.listeners ++ [l]),
            Except.ok ⟨m.currentVersion + 1⟩) := by
  have hM : subscribeM (subscribeM m l) l = { m with listeners := m.listeners ++ [l] } := by
    simp [subscribeM, hl]
  refine ⟨by rw [hM]; simp [subscribeM, hl], by rw [hM], ?_, ?_⟩
  · rw [List.count_append]
    rw [List.count_eq_zero.mpr hl]
    simp
  · rw [hM]
    have hnot := notifyIterM_pure env (m.listeners ++ [l]) fuel [] [] [] hpure hfuel
    simp only [List.nil_append] at hnot
    simp [invokeActionM, hn, hv, hns, hf, hok, hnot]

/-- Witness for C6 amended: double-subscribing listener 7 (whose callback
throws payload 9) to the traffic-light machine registers it once and one
transition invokes it once. -/
theorem c6_amended_witness :
    subscribeM (subscribeM trafficM 7) 7 = subscribeM trafficM 7 ∧
    (subscribeM (subscribeM trafficM 7) 7).listeners = trafficM.listeners ++ [7] ∧
    (trafficM.listeners ++ [7]).count 7 = 1 ∧
    invokeActionM [(7, [LEffect.throwE 9])] 2 ⟨0, some "turningGreen"⟩
        (subscribeM (subscribeM trafficM 7) 7) [5] =
      some ({ trafficM with
                currentState := "turningGreen"
                currentValue := 5
                currentVersion := 1
                currentSnapshot := ⟨1⟩
                listeners := trafficM.listeners ++ [7]
                notifying := false },
            trafficM.listeners ++ [7],
            sinkOf [(7, [LEffect.throwE 9])] (trafficM.listeners ++ [7]),
            Except.ok ⟨1⟩) :=
  c6_amended trafficM 7 (by decide) [(7, [LEffect.throwE 9])] 2
    ⟨0, some "turningGreen"⟩ [5] "turningGreen"
    (fun args => Except.ok (args.headD 0)) 5
    rfl rfl rfl rfl rfl (by decide) (by decide)

/-- Counterexample to C7 as stated: in the createMachine variant, reading
an action name that is not legal in the snapshot's state from a fresh
snapshot's dispatch surface does not fail at all — it returns an action
closure (with an undefined destination) — and invoking that closure fails
with a TypeError (calling the undefined transformer), not with
UnknownAction; no transition is performed. -/
theorem c7_counterexample :
    Snap.actionGet ⟨0⟩ trafficM "requestRed" = Except.ok ⟨0, none⟩ ∧
    invokeActionM [] 1 ⟨0, none⟩ trafficM [] =
      some (trafficM, [], [], Except.error Err.typeError) ∧
    Err.typeError ≠ Err.unknownAction :=
  ⟨rfl, rfl, by decide⟩

/-- C7 amended: only the store variants defensively reject unknown action
names: accessing an action name with no entry for the snapshot's state on
a fresh store snapshot fails with UnknownAction.  In the machine variants
there is no such check — the access succeeds, returning a closure with an
undefined destination, and invoking that closure fails with a TypeError
(not UnknownAction) while leaving the machine unchanged and notifying no
listener. -/
theorem c7_amended
    (st : StoreM) (s : Snap) (actionName : String)
    (transitions : List (String × String))
    (hfresh : s.version = st.actualVersion)
    (htr : List.lookup st.actualState st.transitionsMap = some transitions)
    (hnone : List.lookup actionName transitions = none)
    (m : MachineM) (sm : Snap) (mName : String)
    (mtr : List (String × String))
    (hmfresh : sm.version = m.currentVersion)
    (hmtr : List.lookup m.currentState m.transitionsMap = some mtr)
    (hmnone : List.lookup mName mtr = none)
    (hmn : m.notifying = false) :
    Snap.actionGetS s st actionName = Except.error Err.unknownAction ∧
    Snap.actionGet sm m mName = Except.ok ⟨sm.version, none⟩ ∧
    (∀ (env : List (Nat × Behavior)) (fuel : Nat) (args : List Nat),
      invokeActionM env fuel ⟨sm.version, none⟩ m args =
        some (m, [], [], Except.error Err.typeError)) := by
  refine ⟨?_, ?_, ?_⟩
  · simp [Snap.actionGetS, hfresh, htr, hnone]
  · simp [Snap.actionGet, hmfresh, hmtr, hmnone]
  · intro env fuel args
    simp [invokeActionM, hmn, hmfresh]

/-- Witness for C7 amended at the demo store (unknown name requestRed in
state red) and the traffic-light machine (same unknown name). -/
theorem c7_amended_witness :
    Snap.actionGetS ⟨0⟩ demoStore "requestRed" = Except.error Err.unknownAction ∧
    Snap.actionGet ⟨0⟩ trafficM "requestRed" = Except.ok ⟨Snap.version ⟨0⟩, none⟩ ∧
    (∀ (env : List (Nat × Behavior)) (fuel : Nat) (args : List Nat),
      invokeActionM env fuel ⟨Snap.version ⟨0⟩, none⟩ trafficM args =
        some (trafficM, [], [], Except.error Err.typeError)) :=
  c7_amended demoStore ⟨0⟩ "requestRed" [("requestGreen", "soonGreen")]
    rfl rfl rfl trafficM ⟨0⟩ "requestRed" [("turnGreen", "turningGreen")]
    rfl rfl rfl rfl

/-- C4: rollback policy of the zod-backed createStore.  For a committed
transition whose registered listeners do not mutate the registry, if the
listeners split as a throw-free prefix, a first throwing listener `bad`
and a remainder `post`, then delivery is aborted right after `bad` (the
invocation log is pre ++ [bad]: the remaining listeners are never
invoked), the store is rolled back to exactly its pre-call value `st` —
state, value, version and current snapshot all restored — the error of
the first failing listener propagates to the action caller, the
pre-transition snapshot is fresh again on the resulting store, and the
aborted new snapshot (version + 1) is stale on it. -/
theorem c4_rollback_on_listener_error
    (env : List (Nat × Behavior)) (fuel : Nat) (c : SActionClosure) (st : StoreM)
    (newValue : Nat) (schema : Nat → Except Nat Nat) (v : Nat)
    (pre post : List Nat) (bad : Nat) (e : Nat)
    (hn : st.notifying = false) (hv : c.version = st.actualVersion)
    (hschema : List.lookup c.newState st.valueSchemaMap = some schema)
    (hparse : schema newValue = Except.ok v)
    (hL : st.listeners = pre ++ bad :: post)
    (hpre : ∀ l ∈ pre, noSetEffects (behOf env l) = true ∧
      firstThrow (behOf env l) = none)
    (hbp : noSetEffects (behOf env bad) = true)
    (hbt : firstThrow (behOf env bad) = some e)
    (hfuel : pre.length + 1 ≤ fuel)
    (hsnap : st.actualSnapshot = ⟨st.actualVersion⟩) :
    invokeActionS env fuel c st newValue =
      some (st, pre ++ [bad], Except.error (Err.thrown e)) ∧
    st.actualSnapshot.isFreshOnS st ∧
    Snap.isStaleOnS ⟨st.actualVersion + 1⟩ st := by
  have hnot := notifyIterS_pure_abort env pre fuel [] [] bad post e hpre hbp hbt hfuel
  simp only [List.nil_append] at hnot
  have hlist : pre ++ [bad] ++ post = st.listeners := by
    rw [hL]; simp
  refine ⟨?_, ?_, ?_⟩
  · simp only [invokeActionS, hn, Bool.false_eq_true, if_false, hv, if_pos rfl,
      hschema, hparse]
    rw [show ({ st with
          actualState := c.newState
          actualValue := v
          actualVersion := st.actualVersion + 1
          actualSnapshot := ⟨st.actualVersion + 1⟩ } : StoreM).listeners =
        st.listeners from rfl, hL, hnot, hlist, ← hn]
    rfl
  · simp [Snap.isFreshOnS, Snap.stateOfS, Snap.valueOfS, Snap.actionsOfS, hsnap]
  · refine ⟨?_, ?_, ?_, ?_⟩
    · simp only [Snap.stateOfS]; rw [if_neg (by omega)]
    · simp only [Snap.valueOfS]; rw [if_neg (by omega)]
    · simp only [Snap.actionsOfS]; rw [if_neg (by omega)]
    · intro a; simp only [Snap.actionGetS]; rw [if_neg (by omega)]

/-- Witness for C4: the demo store with listeners 1, 2, 3, where listener
2 throws payload 8 — delivery stops after 2, the store rolls back to its
pre-call value, and the error propagates. -/
theorem c4_witness :
    invokeActionS [(2, [LEffect.throwE 8])] 2 ⟨0, "soonGreen"⟩
        { demoStore with listeners := [1, 2, 3] } 4 =
      some ({ demoStore with listeners := [1, 2, 3] }, [1, 2],
        Except.error (Err.thrown 8)) ∧
    Snap.isFreshOnS
      ({ demoStore with listeners := [1, 2, 3] } : StoreM).actualSnapshot
      { demoStore with listeners := [1, 2, 3] } ∧
    Snap.isStaleOnS ⟨1⟩ { demoStore with listeners := [1, 2, 3] } :=
  c4_rollback_on_listener_error [(2, [LEffect.throwE 8])] 2 ⟨0, "soonGreen"⟩
    { demoStore with listeners := [1, 2, 3] } 4
    (fun v => Except.ok (v + 1)) 5 [1] [3] 2 8
    rfl rfl rfl rfl rfl (by decide) (by decide) (by decide) (by decide) rfl

/-- Looking up a key of `ks` in the association list that pairs every
element of `ks` with `g` of it yields `g` of the key. -/
theorem lookup_key_map {β : Type} (g : String → β) (ks : List String)
    (D : String) (hD : D ∈ ks) :
    List.lookup D (ks.map fun s => (s, g s)) = some (g D) := by
  induction ks with
  | nil => cases hD
  | cons k rest ih =>
    rcases List.mem_cons.mp hD with h | h
    · subst h
      simp [List.lookup]
    · by_cases hk : D = k
      · subst hk
        simp [List.lookup]
      · simp only [List.map_cons, List.lookup]
        rw [show (D == k) = false from beq_eq_false_iff_ne.mpr hk]
        exact ih h

/-- C9: the reverse-edge index of the part_002 createMachine.  For every
transformer-map key D, getPrevStates D returns the list of exactly those
source states with at least one action whose destination is D — each such
predecessor listed once (the result is duplicate-free, given that the
transition table has duplicate-free keys, even when a source has several
actions into D) — and on the table with A --go--> B and B --back--> A the
predecessors of A are [B] and those of B are [A]. -/
theorem c9_prev_states
    (stateKeys : List String) (tm : List (String × List (String × String)))
    (D : String) (hD : D ∈ stateKeys) (hN : (tm.map Prod.fst).Nodup) :
    (∃ L, getPrevStates stateKeys tm D = some L ∧
      (∀ S, S ∈ L ↔
        ∃ transitions, (S, transitions) ∈ tm ∧ D ∈ transitions.map Prod.snd) ∧
      L.Nodup) ∧
    getPrevStates ["A", "B"] [("A", [("go", "B")]), ("B", [("back", "A")])] "A" =
      some ["B"] ∧
    getPrevStates ["A", "B"] [("A", [("go", "B")]), ("B", [("back", "A")])] "B" =
      some ["A"] := by
  refine ⟨?_, rfl, rfl⟩
  refine ⟨(tm.filter fun entry => (entry.2.map Prod.snd).contains D).map Prod.fst,
    ?_, ?_, ?_⟩
  · unfold getPrevStates prevStatesMap
    exact lookup_key_map
      (fun s => (tm.filter fun entry => (entry.2.map Prod.snd).contains s).map Prod.fst)
      stateKeys D hD
  · intro S
    constructor
    · intro hS
      rcases List.mem_map.mp hS with ⟨entry, hent, hfst⟩
      rcases List.mem_filter.mp hent with ⟨htm, hcont⟩
      refine ⟨entry.2, ?_, ?_⟩
      · rw [← hfst]
        exact (Prod.mk.eta ▸ htm)
      · simpa using hcont
    · rintro ⟨transitions, htm, hmem⟩
      refine List.mem_map.mpr ⟨(S, transitions), List.mem_filter.mpr ⟨htm, ?_⟩, rfl⟩
      simpa using hmem
  · exact ((List.filter_sublist tm).map Prod.fst).nodup hN

/-- Witness for C9 at the two-state table of the claim. -/
theorem c9_witness :
    (∃ L, getPrevStates ["A", "B"]
        [("A", [("go", "B")]), ("B", [("back", "A")])] "A" = some L ∧
      (∀ S, S ∈ L ↔ ∃ transitions,
        (S, transitions) ∈ [("A", [("go", "B")]), ("B", [("back", "A")])] ∧
        "A" ∈ transitions.map Prod.snd) ∧
      L.Nodup) ∧
    getPrevStates ["A", "B"] [("A", [("go", "B")]), ("B", [("back", "A")])] "A" =
      some ["B"] ∧
    getPrevStates ["A", "B"] [("A", [("go", "B")]), ("B", [("back", "A")])] "B" =
      some ["A"] :=
  c9_prev_states ["A", "B"] [("A", [("go", "B")]), ("B", [("back", "A")])] "A"
    (by decide) (by decide)

/-- C10: subscribe and unsubscribe calls made while the machine is
notifying are accepted, not rejected (there is no notifying guard on
either path: the Set is updated as usual), and the listener Set is
iterated live: when a notification cycle that started at the beginning of
the Set completes, every listener registered at the end of the cycle has
been invoked during it — in particular a listener newly subscribed by a
running listener and not removed again is invoked before the same cycle
completes. -/
theorem c10_live_set_iteration :
    (∀ (m : MachineM) (l : Nat), m.notifying = true → l ∉ m.listeners →
      (subscribeM m l).listeners = m.listeners ++ [l]) ∧
    (∀ (m : MachineM) (l : Nat), m.notifying = true →
      (unsubscribeM m l).listeners = m.listeners.erase l) ∧
    (∀ (env : List (Nat × Behavior)) (fuel : Nat)
        (todo final flog fsink : List Nat),
      notifyIterM env fuel [] todo [] [] = some (final, flog, fsink) →
      ∀ l ∈ final, l ∈ flog) := by
  refine ⟨?_, ?_, ?_⟩
  · intro m l _ hl
    simp [subscribeM, hl]
  · intro m l _
    rfl
  · intro env fuel todo final flog fsink h l hl
    rcases notifyIterM_final_visited env fuel [] todo [] [] final flog fsink h l hl
      with h0 | h1
    · exact absurd h0 (List.not_mem_nil l)
    · exact h1

/-- Witness for C10: subscribing and unsubscribing on a notifying machine
take effect, and in a cycle where listener 0 subscribes listener 1, the
completed cycle has invoked listener 1 as well. -/
theorem c10_witness :
    (subscribeM { trafficM with notifying := true } 7).listeners = [7] ∧
    (unsubscribeM { trafficM with notifying := true } 7).listeners = [] ∧
    1 ∈ ([0, 1] : List Nat) :=
  ⟨c10_live_set_iteration.1 { trafficM with notifying := true } 7 rfl (by decide),
   c10_live_set_iteration.2.1 { trafficM with notifying := true } 7 rfl,
   c10_live_set_iteration.2.2 [(0, [LEffect.subscribeL 1])] 3 [0] [0, 1] [0, 1] []
     rfl 1 (by decide)⟩
